import Mathlib

/-!
Verification of the certificate-management repository against its
natural-language specification.

Shallow embedding conventions:
* Python strings are modelled as `List Char`.
* Python `random.choices(self.characters, k)` is modelled by an explicit
  random stream `r : ℕ → Fin 36` indexing into the 36-character alphabet;
  each call consumes fresh positions of the stream.
* Calendar dates are modelled as `(month, year)` pairs where only the
  month/year are consumed (generator), or as integer day ordinals where
  only comparisons and day differences are consumed (status / period
  logic); `(d2 - d1).days` becomes integer subtraction of ordinals.
* Python `x / 365.25 > 5` over an integer day count `x` is modelled as
  `7305 < 4 * x` (exact: `x / 365.25 > 5 ↔ 4x > 7305`, and no IEEE-754
  double rounds `4x/1461` across the gap around `5` for any integer `x`).
* Fallible code returns `Except`/`Option`.
-/

namespace Cert

/-! ## ID generator (src/core/generator.py, CertificateIDGenerator) -/

/-- `string.ascii_uppercase + string.digits` (generator.py line 17). -/
def characters : List Char := "ABCDEFGHIJKLMNOPQRSTUVWXYZ0123456789".data

/-- One draw from the alphabet, indexed by the random stream value. -/
def alphaGet (i : Fin 36) : Char := characters.getD i.val 'A'

/-- `''.join(random.choices(self.characters, k))` starting at stream
position `pos`. -/
def randTake (r : ℕ → Fin 36) (pos k : ℕ) : List Char :=
  (List.range k).map (fun j => alphaGet (r (pos + j)))

/-- An expiry date as the generator consumes it: month and year only. -/
structure GDate where
  month : ℕ
  year : ℕ
deriving DecidableEq, Repr

/-- `f"{n:02d}"` for `n ≤ 99` (the only values reached: a calendar month
`1..12` and `year % 100`). -/
def pad2 (n : ℕ) : List Char :=
  [Char.ofNat (48 + n / 10 % 10), Char.ofNat (48 + n % 10)]

/-- `CertificateIDGenerator._format_month_year` (generator.py 55-67):
zero-padded month followed by the last two digits of the year. -/
def formatMonthYear (d : GDate) : List Char :=
  pad2 d.month ++ pad2 (d.year % 100)

/-- `CertificateIDGenerator._generate_id_with_suffix` (generator.py 69-91):
three random 5-character blocks, then a last block of 2 random characters
followed by the suffix, joined by hyphens.  One invocation consumes 17
stream positions starting at `pos`. -/
def generateIdWithSuffix (r : ℕ → Fin 36) (pos : ℕ) (suffix : List Char) :
    List Char :=
  let firstBlock := randTake r pos 5
  let secondBlock := randTake r (pos + 5) 5
  let thirdBlock := randTake r (pos + 10) 5
  let lastBlockRand := randTake r (pos + 15) 2
  let lastBlock := lastBlockRand ++ suffix
  firstBlock ++ '-' :: secondBlock ++ '-' :: thirdBlock ++ '-' :: lastBlock

/-- Failure of `CertificateIDGenerator.generate`: 1000 collisions. -/
inductive GenError where
  | uniqueExhausted
deriving DecidableEq, Repr

/-- The retry loop of `CertificateIDGenerator.generate` (generator.py
44-53): up to `fuel` attempts, attempt number `attempt` drawing from
stream positions `attempt * 17 ..`. -/
def generateLoop (r : ℕ → Fin 36) (suffix : List Char)
    (ids : List (List Char)) : ℕ → ℕ → Except GenError (List Char)
  | _, 0 => .error .uniqueExhausted
  | attempt, fuel + 1 =>
    let cid := generateIdWithSuffix r (attempt * 17) suffix
    if cid ∈ ids then generateLoop r suffix ids (attempt + 1) fuel
    else .ok cid

/-- `CertificateIDGenerator.generate` (generator.py 20-53). -/
def generate (r : ℕ → Fin 36) (valid_to : GDate) (existing_ids : List (List Char)) :
    Except GenError (List Char) :=
  generateLoop r (formatMonthYear valid_to) existing_ids 0 1000

/-- `str.split('-')` on a character list (used by `validate_id_format`). -/
def splitDash : List Char → List (List Char)
  | [] => [[]]
  | c :: rest =>
    match splitDash rest with
    | [] => [[c]]
    | h :: t => if c = '-' then [] :: h :: t else (c :: h) :: t

/-- `CertificateIDGenerator.validate_id_format` (generator.py 142-169):
length 23, four hyphen-separated parts of 5 characters drawn from the
alphabet. -/
def validate_id_format (cid : List Char) : Bool :=
  if cid.length ≠ 23 then false
  else
    let parts := splitDash cid
    parts.length == 4 &&
      parts.all (fun p => p.length == 5 && p.all (fun c => characters.contains c))

/-! ## Certificate-ID validator (src/core/validators.py, CertificateIDValidator) -/

/-- The character class `[A-Z0-9]` of the validator's regex. -/
def isUpperAlnum (c : Char) : Bool :=
  ('A' ≤ c && c ≤ 'Z') || ('0' ≤ c && c ≤ '9')

/-- The regex `^[A-Z0-9]{5}-[A-Z0-9]{5}-[A-Z0-9]{5}-[A-Z0-9]{5}$`
(validators.py line 217), expressed structurally: four hyphen-separated
groups of five `[A-Z0-9]` characters.  Since `-` is outside the class,
matching the regex is equivalent to this split-based check. -/
def cidPatternMatch (cid : List Char) : Bool :=
  let parts := splitDash cid
  parts.length == 4 && parts.all (fun p => p.length == 5 && p.all isUpperAlnum)

/-- `CertificateIDValidator.validate` (validators.py 219-232). -/
def cidValidate (cid : List Char) : Bool :=
  if cid.length ≠ 23 then false
  else cidPatternMatch cid

/-- Python `s[a:b]` on a character list (for `0 ≤ a ≤ b`). -/
def pySlice (s : List Char) (a b : ℕ) : List Char :=
  (s.drop a).take (b - a)

/-- Python `int(s)` restricted to the inputs reachable here (slices of a
string over `[A-Z0-9]`): succeeds exactly on nonempty all-digit strings,
raising `ValueError` (modelled as `none`) otherwise — in particular on
the empty string. -/
def pyInt (s : List Char) : Option ℕ :=
  if s.isEmpty || !s.all (fun c => c.isDigit) then none
  else some (s.foldl (fun acc c => acc * 10 + (c.toNat - 48)) 0)

/-- `CertificateIDValidator.validate_ending` (validators.py 234-265):
takes the last 4 characters, then reads `ending[2:4]` as the month and
`ending[4:6]` as the year, compares with the expected month and
`expected_year % 100`; any `ValueError`/`IndexError` yields `False`. -/
def validate_ending (cid : List Char) (expected_month expected_year : ℕ) : Bool :=
  if !cidValidate cid then false
  else
    let ending := cid.drop (cid.length - 4)
    let month_str := pySlice ending 2 4
    let year_str := pySlice ending 4 6
    match pyInt month_str, pyInt year_str with
    | some month, some year =>
        month == expected_month && year == expected_year % 100
    | _, _ => false

/-! ## INN validator (src/core/validators.py, INNValidator) -/

/-- Numeric value of an ASCII digit character, `int(c)`. -/
def digitVal (c : Char) : ℕ := c.toNat - 48

/-- `sum(int(inn[i]) * coefficients[i] for i in range(9))` with the
10-digit coefficient row (validators.py 113-115). -/
def inn10Checksum (ds : List ℕ) : ℕ :=
  (List.zipWith (· * ·) [2, 4, 10, 3, 5, 9, 4, 6, 8] ds).sum

/-- First control sum of a 12-digit INN (validators.py 123-124). -/
def inn11Checksum (ds : List ℕ) : ℕ :=
  (List.zipWith (· * ·) [7, 2, 4, 10, 3, 5, 9, 4, 6, 8] ds).sum

/-- Second control sum of a 12-digit INN (validators.py 131-132). -/
def inn12Checksum (ds : List ℕ) : ℕ :=
  (List.zipWith (· * ·) [3, 7, 2, 4, 10, 3, 5, 9, 4, 6, 8] ds).sum

/-- `INNValidator._validate_inn_10` (validators.py 111-118). -/
def validateInn10 (inn : List Char) : Bool :=
  let ds := inn.map digitVal
  ds.getD 9 0 == inn10Checksum ds % 11 % 10

/-- `INNValidator._validate_inn_12` (validators.py 120-135). -/
def validateInn12 (inn : List Char) : Bool :=
  let ds := inn.map digitVal
  ds.getD 10 0 == inn11Checksum ds % 11 % 10 &&
    ds.getD 11 0 == inn12Checksum ds % 11 % 10

/-- `INNValidator.validate` (validators.py 91-109): digits-only (ASCII
model of `str.isdigit`), then dispatch on length 10 / 12. -/
def innValidate (inn : List Char) : Bool :=
  if inn.isEmpty || !inn.all (fun c => c.isDigit) then false
  else if inn.length == 10 then validateInn10 inn
  else if inn.length == 12 then validateInn12 inn
  else false

/-! ## Period validation (src/core/validators.py PeriodValidator,
src/core/models.py EditCertificateDatesRequest) -/

/-- `PeriodValidator.validate` (validators.py 141-167), with dates as
integer day ordinals and `today` passed explicitly.  Returns the
`(ok, error-message)` pair of the source.  The 5-year cap
`(valid_to - valid_from).days / 365.25 > 5` is `7305 < 4 * days`. -/
def periodValidate (today valid_from valid_to : ℤ) : Bool × String :=
  if valid_from < today then
    (false, "Дата начала не может быть в прошлом")
  else if valid_to ≤ valid_from then
    (false, "Дата окончания должна быть позже даты начала")
  else if 7305 < 4 * (valid_to - valid_from) then
    (false, "Период действия не может превышать 5 лет")
  else (true, "")

/-- `EditCertificateDatesRequest.validate_dates` (models.py 304-316): the
pydantic validator run at construction.  Only end-after-start and the
5-year span cap are enforced; `today` is never consulted. -/
def editValidateDates (new_valid_from new_valid_to : ℤ) : Except String ℤ :=
  if new_valid_to ≤ new_valid_from then
    .error "Дата окончания должна быть позже даты начала"
  else if 7305 < 4 * (new_valid_to - new_valid_from) then
    .error "Период действия не может превышать 5 лет"
  else .ok new_valid_to

/-! ## Status computation (src/core/models.py, Certificate) -/

/-- The status dictionary returned by `Certificate.status_info`
(models.py 149-226), keeping the fields the computation branches on; the
display-only `emoji`/`text`/`days_info` strings are represented by the
`status` discriminator they are derived from. -/
structure StatusInfo where
  status : String
  is_expired : Bool
  is_not_started : Bool
  days_left : ℤ
  days_to_start : Option ℤ
  days_expired : Option ℤ
deriving DecidableEq, Repr

/-- `Certificate.status_info` (models.py 149-226) as a function of the
certificate's `(is_active, valid_from, valid_to)` and of `today` (the
source reads `date.today()`). -/
def statusInfo (is_active : Bool) (valid_from valid_to today : ℤ) : StatusInfo :=
  if !is_active then
    ⟨"inactive", false, false, 0, none, none⟩
  else if today < valid_from then
    ⟨"not_started", false, true, 0, some (valid_from - today), none⟩
  else if valid_to < today then
    ⟨"expired", true, false, 0, none, some (today - valid_to)⟩
  else
    let dl := valid_to - today
    if dl ≤ 7 then ⟨"expiring_very_soon", false, false, dl, none, none⟩
    else if dl ≤ 30 then ⟨"expiring_soon", false, false, dl, none, none⟩
    else ⟨"active", false, false, dl, none, none⟩

/-- The `Certificate.days_left` property (models.py 248-257). -/
def daysLeft (valid_from valid_to today : ℤ) : ℤ :=
  if today < valid_from then 0
  else if valid_to < today then 0
  else valid_to - today

/-! ## Settings validation (src/config/settings.py) -/

/-- `Settings.validate_notification_group` (settings.py 130-135): the
pydantic validator for `NOTIFICATION_GROUP`; raising makes `Settings`
construction fail with a validation error. -/
def validateNotificationGroup (v : ℤ) : Except String ℤ :=
  if 0 < v then .error "ID группы должен быть отрицательным числом"
  else .ok v

/-! ## Repository session semantics (src/core/database.py,
CertificateRepository.create_certificate) -/

/-- A row of the `certificates` table (the columns the claim inspects). -/
structure CertRowD where
  certificate_id : String
  domain : String
  inn : String
deriving DecidableEq, Repr

/-- A row of the `certificate_history` table. -/
structure HistRowD where
  certificate_id : String
  action : String
deriving DecidableEq, Repr

/-- The committed database state. -/
structure DBState where
  certs : List CertRowD
  history : List HistRowD
deriving DecidableEq, Repr

/-- One session operation: `session.add(...)` of either row kind, or
`session.commit()`. -/
inductive SessionOp where
  | addCert (c : CertRowD)
  | addHist (h : HistRowD)
  | commit
deriving DecidableEq, Repr

/-- Apply the session's buffered (pending) adds to the committed state;
a `commit` flushes all pending writes atomically. -/
def applyPending (db : DBState) : List SessionOp → DBState
  | [] => db
  | .addCert c :: rest => applyPending ⟨db.certs ++ [c], db.history⟩ rest
  | .addHist h :: rest => applyPending ⟨db.certs, db.history ++ [h]⟩ rest
  | .commit :: rest => applyPending db rest

/-- The sequence of committed database states produced by running a
session operation list: each `commit` flushes the pending buffer and
yields one new committed state. -/
def commitTrace : List SessionOp → List SessionOp → DBState → List DBState
  | [], _, _ => []
  | .commit :: rest, pending, db =>
    let db' := applyPending db pending
    db' :: commitTrace rest [] db'
  | op :: rest, pending, db => commitTrace rest (pending ++ [op]) db

/-- The session-operation sequence of
`CertificateRepository.create_certificate` (database.py 185-210): add the
certificate row, `commit`, add the `created` history row (via
`_add_history_record`), `commit` again. -/
def createCertificateOps (c : CertRowD) (h : HistRowD) : List SessionOp :=
  [.addCert c, .commit, .addHist h, .commit]

/-! ## Duplicate-domain policy: current service vs. legacy REST API
(src/core/service.py CertificateService.create_certificate,
src/core/api.py POST /certificates) -/

/-- A `certificates` row as the duplicate checks see it. -/
structure CertRow where
  cid : List Char
  domain : String
  is_active : Bool
deriving DecidableEq, Repr

/-- `CertificateRepository.get_certificates_by_domain(domain,
active_only=True)` (database.py 242-259): exact domain match, active
rows only (result ordering is irrelevant to the claims). -/
def certsByDomainActive (db : List CertRow) (domain : String) : List CertRow :=
  db.filter (fun c => c.domain == domain && c.is_active)

/-- The creation request as the service consumes it. -/
structure SvcCreateReq where
  domain : String
  valid_to : GDate
deriving Repr

/-- Column attributes of the SQLAlchemy `Certificate` model
(database.py 24-49). -/
def certificateColumns : List String :=
  ["id", "certificate_id", "domain", "inn", "valid_from", "valid_to",
    "users_count", "created_at", "created_by", "is_active"]

/-- Keys of the `db_certificate_data` dict the service passes to the
repository (service.py 60-71), in insertion order. -/
def dbCertificateDataKeys : List String :=
  ["certificate_id", "domain", "inn", "valid_from", "valid_to",
    "users_count", "created_by", "created_by_username",
    "created_by_full_name", "is_active"]

/-- The SQLAlchemy declarative constructor behind `Certificate(**data)`
(database.py 186): it raises `TypeError` at the first keyword argument
that is not an attribute of the model class (the repr-quoting of the key
in the Python message is elided here). -/
def declarativeCtorCheck (columns kwargs : List String) : Except String Unit :=
  match kwargs.find? (fun k => !columns.contains k) with
  | some k => .error (k ++ " is an invalid keyword argument for Certificate")
  | none => .ok ()

/-- Errors escaping `CertificateService.create_certificate`: known
taxonomy members (`ValidationError`, `GenerationError`, `DatabaseError`)
are re-raised unchanged, anything else is wrapped as a `DatabaseError`
(service.py 89-93). -/
inductive SvcError where
  | generationError (e : GenError)
  | databaseError (msg : String)
deriving DecidableEq, Repr

/-- `CertificateService.create_certificate` (service.py 29-93): computes
the informational `has_existing` flag from the active same-domain rows,
fetches all existing ids, generates a fresh id, then calls
`certificate_repo.create_certificate(db_certificate_data)`, whose
`Certificate(**certificate_data)` constructor (database.py 186) rejects
the `created_by_username`/`created_by_full_name` keys that are not
columns of the model — a `TypeError` the service's final handler wraps
as `DatabaseError`. -/
def serviceCreate (r : ℕ → Fin 36) (db : List CertRow) (req : SvcCreateReq) :
    Except SvcError (CertRow × Bool) :=
  let existing := certsByDomainActive db req.domain
  let has_existing := decide (0 < existing.length)
  let existing_ids := db.map CertRow.cid
  match generate r req.valid_to existing_ids with
  | .error e => .error (.generationError e)
  | .ok cid =>
    match declarativeCtorCheck certificateColumns dbCertificateDataKeys with
    | .error msg =>
        .error (.databaseError
          ("Неожиданная ошибка при создании сертификата: " ++ msg))
    | .ok _ => .ok (⟨cid, req.domain, true⟩, has_existing)

/-- Outcome of the legacy REST `POST /certificates` route. -/
inductive ApiResult where
  | created (cert : CertRow)
  | httpError (status : ℕ) (detail : String)
deriving DecidableEq, Repr

/-- Modelled from the spec: the legacy `DatabaseStorage.
find_certificates_by_domain` (the legacy async storage generation is not
in the tree; §4.14 describes a list-by-domain lookup over the legacy
store). -/
def legacyFindByDomain (db : List CertRow) (domain : String) : List CertRow :=
  db.filter (fun c => c.domain == domain)

/-- Exceptions that can escape the legacy route's `try` body. -/
inductive RouteExc where
  | validationError (msg : String)
  | storageError (msg : String)
  | httpExc (status : ℕ) (detail : String)
deriving DecidableEq, Repr

/-- The `try:` body of the legacy REST `create_certificate` route
(api.py 90-130): generation first (the legacy `CertificateGenerator` is
not in the tree and is modelled by its outcome `genResult`: a raised
validation error or a generated certificate), then the duplicate check
raising `HTTPException(409)` when an active certificate for the domain
exists, then the legacy database/file saves (not in the tree; modelled
from the spec as succeeding) and the response carrying the
certificate. -/
def apiCreateBody (db : List CertRow) (domain : String)
    (genResult : Except String CertRow) : Except RouteExc CertRow :=
  match genResult with
  | .error e => .error (.validationError e)
  | .ok cert =>
    let existing := legacyFindByDomain db domain
    if !existing.isEmpty then
      let active_certs := existing.filter (fun c => c.is_active)
      if !active_certs.isEmpty then
        .error (.httpExc 409
          ("Активный сертификат для домена " ++ domain ++ " уже существует"))
      else .ok cert
    else .ok cert

/-- The legacy REST `create_certificate` route with its exception
handlers (api.py 84-140): `except ValidationError` → HTTP 400, `except
StorageError` → HTTP 500 storage message, then the final
`except Exception` catch-all → HTTP 500 `Внутренняя ошибка сервера`.
`HTTPException` subclasses `Exception` and is neither of the first two,
so the 409 raised inside the `try` body by the duplicate check is
intercepted by the catch-all and surfaces as a 500. -/
def apiCreate (db : List CertRow) (domain : String)
    (genResult : Except String CertRow) : ApiResult :=
  match apiCreateBody db domain genResult with
  | .ok cert => .created cert
  | .error (.validationError msg) => .httpError 400 msg
  | .error (.storageError _) => .httpError 500 "Ошибка сохранения сертификата"
  | .error (.httpExc _ _) => .httpError 500 "Внутренняя ошибка сервера"

/-! ## Access-control middleware (src/bot/middleware.py, AccessMiddleware) -/

/-- Telegram chat types the middleware distinguishes. -/
inductive ChatType where
  | privateChat
  | groupChat
  | supergroupChat
  | channelChat
deriving DecidableEq, Repr

/-- `event.from_user` carrier. -/
structure TgUser where
  id : ℤ
deriving DecidableEq, Repr

/-- `event.chat` / `event.message.chat` carrier. -/
structure TgChat where
  type : ChatType
deriving DecidableEq, Repr

/-- The message attached to a callback query (its chat may be absent). -/
structure TgMsgLite where
  chat : Option TgChat
deriving DecidableEq, Repr

/-- An incoming Telegram event as the middleware classifies it:
a `Message`, a `CallbackQuery`, or any other update type. -/
inductive TgEvent where
  | message (from_user : Option TgUser) (chat : Option TgChat)
  | callbackQuery (from_user : Option TgUser) (msg : Option TgMsgLite)
  | other
deriving DecidableEq, Repr

/-- The access lists of `Settings` (settings.py 65-89). -/
structure BotSettings where
  admin_users : List ℤ
  verify_users : List ℤ
deriving Repr

/-- `Settings.is_admin` (settings.py 79-81). -/
def isAdmin (s : BotSettings) (uid : ℤ) : Bool := s.admin_users.contains uid

/-- `Settings.is_verify_user` (settings.py 83-85): verify-listed OR
admin-listed. -/
def isVerifyUser (s : BotSettings) (uid : ℤ) : Bool :=
  s.verify_users.contains uid || s.admin_users.contains uid

/-- `Settings.is_allowed_user` (settings.py 87-89): member of the union
of both lists. -/
def isAllowedUser (s : BotSettings) (uid : ℤ) : Bool :=
  s.admin_users.contains uid || s.verify_users.contains uid

/-- User-id resolution of `AccessMiddleware.__call__` (middleware.py
43-53): `from_user.id` of a `Message` or `CallbackQuery`, `None`
otherwise. -/
def resolveUserId : TgEvent → Option ℤ
  | .message fu _ => fu.map TgUser.id
  | .callbackQuery fu _ => fu.map TgUser.id
  | .other => none

/-- Chat-type resolution of `AccessMiddleware.__call__` (middleware.py
43-53). -/
def resolveChatType : TgEvent → Option ChatType
  | .message _ chat => chat.map TgChat.type
  | .callbackQuery _ msg => msg.bind (fun m => m.chat.map TgChat.type)
  | .other => none

/-- The permissions attached for downstream handlers (middleware.py
125-130). -/
structure UserPerms where
  is_admin : Bool
  can_verify : Bool
  user_id : ℤ
deriving DecidableEq, Repr

/-- Middleware outcome: the downstream handler is invoked (with the
attached permissions, or with none attached on the no-user path), the
update is silently dropped (group chats), or it is rejected with an
access-denied reply. -/
inductive MwOutcome where
  | handled (perms : Option UserPerms)
  | droppedGroup
  | rejected
deriving DecidableEq, Repr

/-- `AccessMiddleware.__call__` (middleware.py 22-136): no resolvable
user id → call the handler straight away; group/supergroup chat → drop;
user not in the allow lists → reject; otherwise call the handler with
the permission flags attached. -/
def accessMiddleware (s : BotSettings) (e : TgEvent) : MwOutcome :=
  match resolveUserId e with
  | none => .handled none
  | some uid =>
    let ct := resolveChatType e
    if ct = some .groupChat ∨ ct = some .supergroupChat then .droppedGroup
    else if !isAllowedUser s uid then .rejected
    else .handled (some ⟨isAdmin s uid, isVerifyUser s uid, uid⟩)

/-! ## Concrete inputs used by closed theorems -/

/-- A concrete random stream: every draw picks index 0, i.e. `'A'`. -/
def constStreamA : ℕ → Fin 36 := fun _ => ⟨0, by omega⟩

/-- Concrete certificate row for the repository-trace theorems. -/
def cexCertRow : CertRowD := ⟨"AAAAA-AAAAA-AAAAA-AA0524", "example.com", "7707083893"⟩

/-- Concrete `created` history row for the repository-trace theorems. -/
def cexHistRow : HistRowD := ⟨"AAAAA-AAAAA-AAAAA-AA0524", "created"⟩

/-- Events from which `AccessMiddleware` cannot resolve a user id: a
`Message` or `CallbackQuery` without `from_user`, or any other update
type. -/
def hasNoResolvableUser : TgEvent → Bool
  | .message fu _ => fu.isNone
  | .callbackQuery fu _ => fu.isNone
  | .other => true

/-! ## Helper lemmas -/

theorem randTake_length (r : ℕ → Fin 36) (pos k : ℕ) :
    (randTake r pos k).length = k := by
  simp [randTake]

theorem generateIdWithSuffix_eq_append (r : ℕ → Fin 36) (pos : ℕ)
    (suffix : List Char) :
    generateIdWithSuffix r pos suffix =
      (randTake r pos 5 ++ '-' :: randTake r (pos + 5) 5 ++ '-' ::
        randTake r (pos + 10) 5 ++ '-' :: randTake r (pos + 15) 2) ++ suffix := by
  simp [generateIdWithSuffix]

theorem generateIdWithSuffix_length (r : ℕ → Fin 36) (pos : ℕ)
    (suffix : List Char) :
    (generateIdWithSuffix r pos suffix).length = 20 + suffix.length := by
  rw [generateIdWithSuffix_eq_append]
  simp [randTake_length]
  omega

theorem generateIdWithSuffix_drop (r : ℕ → Fin 36) (pos : ℕ)
    (suffix : List Char) :
    (generateIdWithSuffix r pos suffix).drop 20 = suffix := by
  rw [generateIdWithSuffix_eq_append]
  have h20 : (randTake r pos 5 ++ '-' :: randTake r (pos + 5) 5 ++ '-' ::
      randTake r (pos + 10) 5 ++ '-' :: randTake r (pos + 15) 2).length = 20 := by
    simp [randTake_length]
  rw [← h20, List.drop_left]

theorem generateLoop_ok (r : ℕ → Fin 36) (suffix : List Char)
    (ids : List (List Char)) :
    ∀ fuel attempt cid, generateLoop r suffix ids attempt fuel = .ok cid →
      ∃ a, cid = generateIdWithSuffix r (a * 17) suffix := by
  intro fuel
  induction fuel with
  | zero => intro attempt cid h; simp [generateLoop] at h
  | succ n ih =>
    intro attempt cid h
    rw [generateLoop] at h
    by_cases hmem : generateIdWithSuffix r (attempt * 17) suffix ∈ ids
    · simp only [hmem, if_pos] at h
      exact ih (attempt + 1) cid h
    · simp only [hmem, if_neg, not_false_iff] at h
      exact ⟨attempt, (Except.ok.injEq _ _).mp h.symm ▸ rfl⟩

theorem pad2_length (n : ℕ) : (pad2 n).length = 2 := rfl

theorem formatMonthYear_length (d : GDate) : (formatMonthYear d).length = 4 := rfl

theorem generate_ok_shape (r : ℕ → Fin 36) (d : GDate)
    (ids : List (List Char)) (cid : List Char)
    (h : generate r d ids = .ok cid) :
    cid.length = 24 ∧ cid.drop 20 = formatMonthYear d := by
  obtain ⟨a, ha⟩ := generateLoop_ok r (formatMonthYear d) ids 1000 0 cid h
  subst ha
  refine ⟨?_, generateIdWithSuffix_drop ..⟩
  rw [generateIdWithSuffix_length, formatMonthYear_length]

/-! ## Claim theorems -/

/-- C1 (code_bug): the spec and the repository's own test
(`src/tests/test_basic.py`, `assert len(cert_id) == 23`) and the
generator's own docstrings promise a 23-character
`XXXXX-XXXXX-XXXXX-XXXXX` code accepted by `validate_id_format`, but
`_generate_id_with_suffix` builds the last block from 2 random characters
plus the 4-character date suffix, so every generated code has 24
characters with a 6-character final group and is rejected by the very
same component's `validate_id_format`.  Witnessed here at expiry month 5,
year 2024, the all-`'A'` random stream and an empty existing-id set. -/
theorem C1_generate_violates_own_format :
    generate constStreamA ⟨5, 2024⟩ [] = .ok "AAAAA-AAAAA-AAAAA-AA0524".data ∧
    ("AAAAA-AAAAA-AAAAA-AA0524".data).length = 24 ∧
    validate_id_format "AAAAA-AAAAA-AAAAA-AA0524".data = false := by
  refine ⟨rfl, by decide, by decide⟩

/-- C7 (confirmed): for every expiry date, every random stream and every
existing-id set, any code returned by `CertificateIDGenerator.generate`
ends in the 4-character suffix `zero-padded month ++ (year mod 100)`
produced by `_format_month_year`. -/
theorem C7_generate_suffix_is_month_year :
    ∀ (r : ℕ → Fin 36) (d : GDate) (ids : List (List Char)) (cid : List Char),
      1 ≤ d.month → d.month ≤ 12 →
      generate r d ids = .ok cid →
      cid.drop (cid.length - 4) = pad2 d.month ++ pad2 (d.year % 100) := by
  intro r d ids cid _ _ h
  obtain ⟨hlen, hdrop⟩ := generate_ok_shape r d ids cid h
  rw [hlen]
  exact hdrop

/-- Witness for C7: expiry 2024-05 yields a code ending in `"0524"`. -/
theorem C7_witness :
    ("AAAAA-AAAAA-AAAAA-AA0524".data).drop
        (("AAAAA-AAAAA-AAAAA-AA0524".data).length - 4) = "0524".data := by
  have h := C7_generate_suffix_is_month_year constStreamA ⟨5, 2024⟩ []
    "AAAAA-AAAAA-AAAAA-AA0524".data (by decide) (by decide) rfl
  exact h.trans (by decide)

/-- C9 (confirmed): `CertificateIDValidator.validate_ending` returns
`False` for every input and every expected month/year: after taking the
4-character ending it reads the year from slice `[4:6]` of that ending,
which is always empty, so the `int` conversion always fails. -/
theorem C9_validate_ending_always_false :
    ∀ (cid : List Char) (expected_month expected_year : ℕ),
      validate_ending cid expected_month expected_year = false := by
  intro cid em ey
  unfold validate_ending
  by_cases h : cidValidate cid
  · have hlen : cid.length = 23 := by
      by_contra hne
      unfold cidValidate at h
      simp [hne] at h
    have hendlen : (cid.drop (cid.length - 4)).length = 4 := by
      simp [List.length_drop, hlen]
    have hyear : pySlice (cid.drop (cid.length - 4)) 4 6 = [] := by
      unfold pySlice
      rw [List.drop_eq_nil_of_le (by omega)]
      rfl
    simp only [h, Bool.not_true, Bool.false_eq_true, if_false, hyear]
    cases pyInt (pySlice (cid.drop (cid.length - 4)) 2 4) <;> rfl
  · simp [h]

/-- C4 (confirmed): `status_info` yields exactly one of six mutually
exclusive classifications with precedence `inactive` (whenever
`is_active` is false, regardless of dates), then `not_started`
(`today < valid_from`), then `expired` (`today > valid_to`), then
`expiring_very_soon` (`days_left ≤ 7`), `expiring_soon`
(`8 ≤ days_left ≤ 30`) and `active` (`days_left > 30`) with
`days_left = valid_to - today`; and the `days_left` property is 0
whenever `today` lies outside `[valid_from, valid_to]`. -/
theorem C4_status_info_classification :
    ∀ (is_active : Bool) (vf vt today : ℤ),
      ((statusInfo is_active vf vt today).status = "inactive" ↔
        is_active = false) ∧
      ((statusInfo is_active vf vt today).status = "not_started" ↔
        is_active = true ∧ today < vf) ∧
      ((statusInfo is_active vf vt today).status = "expired" ↔
        is_active = true ∧ vf ≤ today ∧ vt < today) ∧
      ((statusInfo is_active vf vt today).status = "expiring_very_soon" ↔
        is_active = true ∧ vf ≤ today ∧ today ≤ vt ∧ vt - today ≤ 7) ∧
      ((statusInfo is_active vf vt today).status = "expiring_soon" ↔
        is_active = true ∧ vf ≤ today ∧ today ≤ vt ∧
          8 ≤ vt - today ∧ vt - today ≤ 30) ∧
      ((statusInfo is_active vf vt today).status = "active" ↔
        is_active = true ∧ vf ≤ today ∧ today ≤ vt ∧ 30 < vt - today) ∧
      (is_active = true → vf ≤ today → today ≤ vt →
        (statusInfo is_active vf vt today).days_left = vt - today) ∧
      ((today < vf ∨ vt < today) → daysLeft vf vt today = 0) := by
  intro a vf vt today
  cases a <;>
    simp only [statusInfo, daysLeft, Bool.not_true, Bool.not_false, if_true,
      if_false, Bool.true_eq_false, Bool.false_eq_true] <;>
    split_ifs <;>
    simp_all <;>
    omega

/-- Witness for C4: a certificate not yet started has `days_left = 0`
through the clamp, and an in-window certificate reports
`valid_to - today` days. -/
theorem C4_witness :
    daysLeft 10 20 25 = 0 ∧ (statusInfo true 10 20 15).days_left = 20 - 15 := by
  obtain ⟨-, -, -, -, -, -, -, hclamp⟩ := C4_status_info_classification true 10 20 25
  obtain ⟨-, -, -, -, -, -, hdl, -⟩ := C4_status_info_classification true 10 20 15
  exact ⟨hclamp (Or.inr (by omega)), hdl rfl (by omega) (by omega)⟩

/-- C5 (confirmed): period validation is asymmetric between creation and
date editing.  The creation-path `PeriodValidator.validate` accepts
exactly when `today ≤ valid_from`, `valid_from < valid_to` and the span
is at most `5 × 365.25` days (`4·days ≤ 7305`), rejecting any start
strictly before today; `EditCertificateDatesRequest` construction
enforces only `new_valid_to > new_valid_from` and the same span cap, so
a start in the past is accepted there. -/
theorem C5_period_validation_asymmetry :
    ∀ today vf vt : ℤ,
      ((periodValidate today vf vt).1 = true ↔
        today ≤ vf ∧ vf < vt ∧ 4 * (vt - vf) ≤ 7305) ∧
      (vf < today → (periodValidate today vf vt).1 = false) ∧
      (editValidateDates vf vt = .ok vt ↔
        vf < vt ∧ 4 * (vt - vf) ≤ 7305) ∧
      (vf < today → vf < vt → 4 * (vt - vf) ≤ 7305 →
        editValidateDates vf vt = .ok vt) := by
  intro today vf vt
  refine ⟨?_, ?_, ?_, ?_⟩
  · unfold periodValidate
    split_ifs <;> simp_all
  · intro h
    unfold periodValidate
    split_ifs
    rfl
  · unfold editValidateDates
    split_ifs <;> simp_all
  · intro h1 h2 h3
    unfold editValidateDates
    split_ifs <;> first | rfl | omega

/-- Witness for C5: with today = 100, a period starting at 50 (in the
past) and ending at 60 is rejected by the creation validator but accepted
by the edit-request validator. -/
theorem C5_witness :
    (periodValidate 100 50 60).1 = false ∧ editValidateDates 50 60 = .ok 60 := by
  obtain ⟨-, hreject, -, haccept⟩ := C5_period_validation_asymmetry 100 50 60
  exact ⟨hreject (by omega), haccept (by omega) (by omega) (by omega)⟩

/-- C2 counterexample: running the exact session-operation sequence of
`CertificateRepository.create_certificate` from an empty database
produces a committed state that contains the certificate row while the
history table is still empty — the two writes are not under a single
commit. -/
theorem C2_counterexample :
    (commitTrace (createCertificateOps cexCertRow cexHistRow) [] ⟨[], []⟩).any
      (fun db => decide (cexCertRow ∈ db.certs) && db.history.isEmpty) = true := by
  decide

/-- C2 as amended: `create_certificate` issues two commits, not one: the
first commits the certificate insert alone, the second adds the
`created` history row, so the commit trace is exactly a state with the
certificate but without the history row followed by the state with
both. -/
theorem C2_create_two_commit_trace :
    ∀ (c : CertRowD) (h : HistRowD) (db : DBState),
      commitTrace (createCertificateOps c h) [] db =
        [⟨db.certs ++ [c], db.history⟩,
          ⟨db.certs ++ [c], db.history ++ [h]⟩] := by
  intro c h db
  rfl

/-- C8 counterexample: `notification_group = 0` is not negative, yet the
validator accepts it — construction does not fail for every non-negative
value. -/
theorem C8_counterexample :
    validateNotificationGroup 0 = .ok 0 ∧ ¬ ((0 : ℤ) < 0) := by
  exact ⟨rfl, by omega⟩

/-- C8 as amended: `Settings` construction fails with a validation error
exactly for strictly positive `notification_group` values; zero and all
negative values are accepted. -/
theorem C8_notification_group_sign :
    ∀ v : ℤ,
      (0 < v → validateNotificationGroup v =
        .error "ID группы должен быть отрицательным числом") ∧
      (v ≤ 0 → validateNotificationGroup v = .ok v) := by
  intro v
  constructor
  · intro h
    simp [validateNotificationGroup, h]
  · intro h
    simp [validateNotificationGroup, not_lt.mpr h]

/-- Witness for C8: the documented group id `-1001234567890` is accepted
and `5` is rejected. -/
theorem C8_witness :
    validateNotificationGroup (-1001234567890) = .ok (-1001234567890) ∧
    validateNotificationGroup 5 =
      .error "ID группы должен быть отрицательным числом" := by
  exact ⟨(C8_notification_group_sign (-1001234567890)).2 (by omega),
    (C8_notification_group_sign 5).1 (by omega)⟩

/-- C10 (confirmed): whenever `AccessMiddleware` cannot resolve a user id
from an event (no `from_user`, or an update that is neither a `Message`
nor a `CallbackQuery`), it invokes the downstream handler with no
permission data attached, performing no allow-list or role check at all
(the outcome does not depend on the configured access lists). -/
theorem C10_no_user_bypasses_access :
    ∀ (s : BotSettings) (e : TgEvent),
      (resolveUserId e = none ↔ hasNoResolvableUser e = true) ∧
      (resolveUserId e = none → accessMiddleware s e = .handled none) := by
  intro s e
  constructor
  · cases e with
    | message fu chat => cases fu <;> simp [resolveUserId, hasNoResolvableUser]
    | callbackQuery fu msg => cases fu <;> simp [resolveUserId, hasNoResolvableUser]
    | other => simp [resolveUserId, hasNoResolvableUser]
  · intro h
    unfold accessMiddleware
    rw [h]

/-- Witness for C10: a message without a sender reaches the handler even
under non-empty access lists. -/
theorem C10_witness :
    accessMiddleware ⟨[111111111], [222222222]⟩ (.message none none) =
      .handled none :=
  (C10_no_user_bypasses_access ⟨[111111111], [222222222]⟩ (.message none none)).2 rfl

/-- C3 (code_bug): the advisory-versus-blocking duplicate policy the
claim describes is the plain intent of both code paths — the service
computes `has_existing` and never blocks on its duplicate check, and the
legacy route explicitly raises a 409 conflict — but both paths are
broken.  The service's repository insert receives the non-column
`created_by_username`/`created_by_full_name` keywords, so every creation
attempt ends in a `DatabaseError` and the service never returns the
`(certificate, has_existing = true)` pair; and the legacy route's own
`except Exception` catch-all intercepts the raised `HTTPException(409)`
and answers 500, never 409.  Evaluated at a concrete failing input: a
database holding an active certificate for `example.com`. -/
theorem C3_duplicate_policy_bug :
    (∀ (r : ℕ → Fin 36) (db : List CertRow) (req : SvcCreateReq),
        ∃ e, serviceCreate r db req = .error e) ∧
    (∀ (db : List CertRow) (domain : String) (cert : CertRow),
        apiCreate db domain (.ok cert) = .created cert ∨
        apiCreate db domain (.ok cert) =
          .httpError 500 "Внутренняя ошибка сервера") ∧
    serviceCreate constStreamA [⟨"X".data, "example.com", true⟩]
        ⟨"example.com", ⟨5, 2024⟩⟩ =
      .error (.databaseError
        ("Неожиданная ошибка при создании сертификата: " ++
          "created_by_username is an invalid keyword argument for Certificate")) ∧
    apiCreate [⟨"X".data, "example.com", true⟩] "example.com"
        (.ok ⟨"BBBBB".data, "example.com", true⟩) =
      .httpError 500 "Внутренняя ошибка сервера" := by
  refine ⟨?_, ?_, rfl, rfl⟩
  · intro r db req
    rcases hgen : generate r req.valid_to (db.map CertRow.cid) with e | cid
    · exact ⟨.generationError e, by simp [serviceCreate, hgen]⟩
    · exact ⟨.databaseError
        ("Неожиданная ошибка при создании сертификата: " ++
          "created_by_username is an invalid keyword argument for Certificate"),
        by simp [serviceCreate, hgen, declarativeCtorCheck,
          certificateColumns, dbCertificateDataKeys]⟩
  · intro db domain cert
    unfold apiCreate apiCreateBody
    by_cases h1 : (legacyFindByDomain db domain).isEmpty
    · simp [h1]
    · by_cases h2 :
        ((legacyFindByDomain db domain).filter (fun c => c.is_active)).isEmpty
      · simp [h1, h2]
      · simp [h1, h2]

/-- C6 (confirmed): `INNValidator.validate` accepts exactly the all-digit
strings of length 10 whose tenth digit equals the weighted checksum
`mod 11 mod 10` with coefficients `[2,4,10,3,5,9,4,6,8]`, and of length
12 whose eleventh and twelfth digits independently match the analogous
checksums with coefficients `[7,2,4,10,3,5,9,4,6,8]` and
`[3,7,2,4,10,3,5,9,4,6,8]`; in particular `"7707083893"` validates and
every change of its last digit invalidates it. -/
theorem C6_inn_validator :
    (∀ inn : List Char,
        innValidate inn = true ↔
          (inn.all (fun c => c.isDigit) = true ∧
            ((inn.length = 10 ∧
                (inn.map digitVal).getD 9 0 =
                  inn10Checksum (inn.map digitVal) % 11 % 10) ∨
              (inn.length = 12 ∧
                (inn.map digitVal).getD 10 0 =
                  inn11Checksum (inn.map digitVal) % 11 % 10 ∧
                (inn.map digitVal).getD 11 0 =
                  inn12Checksum (inn.map digitVal) % 11 % 10)))) ∧
    innValidate "7707083893".data = true ∧
    (∀ d : Fin 10, d.val ≠ 3 →
        innValidate ("770708389".data ++ [Char.ofNat (48 + d.val)]) = false) := by
  refine ⟨?_, by decide, by decide⟩
  intro inn
  have hne10 : inn.length = 10 → inn.isEmpty = false := by
    intro h; cases inn <;> simp_all
  have hne12 : inn.length = 12 → inn.isEmpty = false := by
    intro h; cases inn <;> simp_all
  unfold innValidate validateInn10 validateInn12
  by_cases hd : inn.all (fun c => c.isDigit)
  · by_cases h10 : inn.length = 10
    · simp [hd, h10, hne10 h10]
    · by_cases h12 : inn.length = 12
      · simp [hd, h10, h12, hne12 h12]
      · simp [hd, h10, h12]
  · simp [hd]

/-- Witness for C6: replacing the last digit of `"7707083893"` by `9`
makes the INN invalid. -/
theorem C6_witness :
    innValidate ("770708389".data ++ [Char.ofNat (48 + (9 : Fin 10).val)]) = false :=
  C6_inn_validator.2.2 9 (by decide)

end Cert
